import Mathlib

/-!
Verification of the Medmatch authentication subsystem
(`src/server/src/modules/auth`), shallowly embedded in Lean.

Tokens are modelled abstractly: a signed token records its payload, the
secret it was signed with, and its absolute expiry; verification succeeds
exactly when the secret matches and the clock is before the expiry, which
is the observable contract of the `jsonwebtoken` sign/verify pair.
-/

namespace Medmatch

/-- Values appearing as a field of a decoded JWT payload: a JSON string, or
any non-string JSON value (the code only distinguishes these two cases via
runtime type checks). -/
inductive JVal
  | jstr (s : String)
  | jother
deriving DecidableEq

/-- Decoded JWT payloads: a plain string payload or an object payload with
named fields. -/
inductive Decoded
  | str (s : String)
  | obj (fields : List (String × JVal))
deriving DecidableEq

/-- Field lookup on a decoded payload (property access on the object). -/
def Decoded.lookup : Decoded → String → Option JVal
  | .str _, _ => none
  | .obj fields, k => (fields.find? (fun p => p.1 == k)).map (fun p => p.2)

/-- Signed JWTs: the payload, the secret used at signing, and the absolute
expiry in epoch seconds (none when signed without expiresIn). -/
structure Token where
  payload : Decoded
  secret : String
  exp : Option Nat
deriving DecidableEq

/-- Candidate token strings handed to verification: either a well-formed
signed token or a malformed string that fails decoding. -/
inductive TokenStr
  | malformed (s : String)
  | tok (t : Token)
deriving DecidableEq

/-- Embedding of jwt.sign for the two call sites in the auth service: both
sign the object payload with string fields email and id, with an
absolute expiry of now + expSec seconds. -/
def jwtSign (email id secret : String) (now expSec : Nat) : Token :=
  ⟨.obj [("email", .jstr email), ("id", .jstr id)], secret, some (now + expSec)⟩

/-- Embedding of jwt.verify at clock now (epoch seconds): returns the
decoded payload when the signing secret matches and the token is unexpired
(jsonwebtoken reports TokenExpiredError once the clock reaches exp); fails
on a malformed token string, a secret mismatch, or expiry. -/
def jwtVerify (ts : TokenStr) (secret : String) (now : Nat) : Option Decoded :=
  match ts with
  | .malformed _ => none
  | .tok t =>
    if t.secret = secret then
      match t.exp with
      | some e => if now < e then some t.payload else none
      | none => some t.payload
    else none

/-- Stored password hashes. Modelled from the spec: the Password Hasher
(the external bcrypt dependency, spec section 4.1) is idealized — a
well-formed hash determines exactly the plaintext it was derived from, and
a stored hash field may instead be malformed. -/
inductive StoredHash
  | bcrypt (ofPassword : String)
  | malformedHash (s : String)
deriving DecidableEq

/-- Modelled from the spec: bcrypt.hash(password, 10), one-way transform
for credential storage (the cost factor does not affect observable
behaviour here). -/
def bcryptHash (password : String) : StoredHash := .bcrypt password

/-- Modelled from the spec: bcrypt.compare(password, hash) evaluates to a
boolean; a malformed hash causes verification to return false, never to
throw (spec section 4.1). -/
def bcryptCompare (password : String) (h : StoredHash) : Bool :=
  match h with
  | .bcrypt p => password == p
  | .malformedHash _ => false

/-- Account documents as persisted by accountSchema: Mongo id, email
(stored lowercased by the schema), password hash, entryDate (epoch ms,
defaulted to Date.now() at creation). -/
structure AccountDoc where
  _id : String
  email : String
  password : StoredHash
  entryDate : Nat
deriving DecidableEq

/-- API-level account objects (class Account in auth.model.ts). -/
structure Account where
  id : String
  email : String
  password : StoredHash
  entryDate : Nat
deriving DecidableEq

/-- Embedding of Account.fromDoc: id is the document id rendered as a
string. -/
def Account.fromDoc (doc : AccountDoc) : Account :=
  ⟨doc._id, doc.email, doc.password, doc.entryDate⟩

/-- The credential store: the accounts collection. -/
abbrev Store := List AccountDoc

/-- Embedding of AccountModel.findOne on an email filter: the first stored
document whose email equals the query string exactly. -/
def findOne (store : Store) (email : String) : Option AccountDoc :=
  store.find? (fun d => d.email == email)

/-- The unique index on email declared by accountSchema: no two stored
documents share an email. -/
def uniqueEmails (store : Store) : Prop :=
  store.Pairwise (fun a b => a.email ≠ b.email)

/-- Client-observable HTTP errors (class HttpError in types/errors): error
class name, message, error code, HTTP status. -/
structure HttpError where
  name : String
  details : String
  code : String
  status : Nat
deriving DecidableEq

/-- Embedding of new UnauthorizedError(details): code UNAUTHORIZED, status
401. -/
def unauthorizedError (details : String) : HttpError :=
  ⟨"UnauthorizedError", details, "UNAUTHORIZED", 401⟩

/-- Embedding of new AccountConflictError(details), which extends
ConflictError: code ACCOUNT_CONFLICT, status 409. -/
def accountConflictError (details : String) : HttpError :=
  ⟨"AccountConflictError", details, "ACCOUNT_CONFLICT", 409⟩

/-- Process environment: the two signing secrets. -/
structure Env where
  accessTokenSecret : String
  refreshTokenSecret : String
deriving DecidableEq

/-- Thrown JavaScript errors as discriminated by the signup catch block: a
MongoError carrying a numeric code, or any other error. -/
inductive JsError
  | mongoError (code : Int)
  | otherError (name : String)
deriving DecidableEq

/-- MongooseCode.DuplicateKey. -/
def duplicateKeyCode : Int := 11000

/-- Outcomes of signup: an HTTP-level error produced by the service, or a
store error rethrown unchanged. -/
inductive SignupErr
  | http (e : HttpError)
  | rethrown (e : JsError)
deriving DecidableEq

/-- Embedding of the accountSchema lowercase setter (JavaScript
toLowerCase): lowercases each character of the email before storage. -/
def jsToLowerCase (s : String) : String := ⟨s.data.map Char.toLower⟩

/-- Saving a new account document: the unique index rejects a document
whose (already lowercased) email equals a stored document's email, with the
duplicate key MongoError; otherwise the document is inserted. -/
def save (store : Store) (doc : AccountDoc) : Except JsError Store :=
  if store.any (fun a => a.email == doc.email) then
    .error (.mongoError duplicateKeyCode)
  else
    .ok (store ++ [doc])

namespace AuthService

/-- Embedding of AuthService.login: look up the account by email; if absent
or the password check fails, fail with the ambiguous UnauthorizedError;
otherwise return the account. -/
def login (store : Store) (email password : String) : Except HttpError Account :=
  match findOne store email with
  | none => .error (unauthorizedError "Invalid email or password")
  | some accountDoc =>
    if bcryptCompare password accountDoc.password then
      .ok (Account.fromDoc accountDoc)
    else
      .error (unauthorizedError "Invalid email or password")

/-- The catch block of AuthService.signup: a MongoError with the duplicate
key code becomes AccountConflictError for the submitted email; every other
error is rethrown unchanged. -/
def signupCatch (email : String) (e : JsError) : SignupErr :=
  match e with
  | .mongoError code =>
    if code = duplicateKeyCode then
      .http (accountConflictError ("Account with email " ++ email ++ " already exists"))
    else
      .rethrown (.mongoError code)
  | .otherError n => .rethrown (.otherError n)

/-- Embedding of AuthService.signup: hash the password, construct the
document (the schema lowercases the email and defaults entryDate), save it,
translating a failure through the catch block. freshId is the ObjectId
minted for the new document and nowMs its creation time. -/
def signup (store : Store) (freshId : String) (nowMs : Nat) (email password : String) :
    Except SignupErr (Account × Store) :=
  let doc : AccountDoc := ⟨freshId, jsToLowerCase email, bcryptHash password, nowMs⟩
  match save store doc with
  | .error e => .error (signupCatch email e)
  | .ok store' => .ok (Account.fromDoc doc, store')

/-- Embedding of AuthService.generateRefreshToken: jwt.sign of the email/id
payload with the refresh secret and expiresIn 7d, that is 7*24*60*60
seconds. -/
def generateRefreshToken (env : Env) (now : Nat) (email id : String) : Token :=
  jwtSign email id env.refreshTokenSecret now (7 * 24 * 60 * 60)

/-- The payload shape check inside generateAccessToken: the decoded value
must be an object whose email and id fields are both strings. -/
def payloadFields (d : Decoded) : Option (String × String) :=
  match d with
  | .str _ => none
  | .obj _ =>
    match d.lookup "email", d.lookup "id" with
    | some (.jstr email), some (.jstr id) => some (email, id)
    | _, _ => none

/-- Embedding of AuthService.generateAccessToken: verify the refresh token
against the refresh secret, check the payload shape, look the account up by
the payload email, compare ids, and on success sign a fresh access token
with the access secret and expiresIn 15m, that is 15*60 seconds. Every
failure path raises the same UnauthorizedError. -/
def generateAccessToken (env : Env) (store : Store) (now : Nat) (refreshToken : TokenStr) :
    Except HttpError Token :=
  match jwtVerify refreshToken env.refreshTokenSecret now with
  | none => .error (unauthorizedError "Invalid refresh token")
  | some decoded =>
    match payloadFields decoded with
    | none => .error (unauthorizedError "Invalid refresh token")
    | some (email, id) =>
      match findOne store email with
      | none => .error (unauthorizedError "Invalid refresh token")
      | some accountDoc =>
        if (Account.fromDoc accountDoc).id ≠ id then
          .error (unauthorizedError "Invalid refresh token")
        else
          .ok (jwtSign email id env.accessTokenSecret now (15 * 60))

end AuthService

/-- Cookie options as passed to res.cookie / res.clearCookie. -/
structure CookieOpts where
  httpOnly : Bool
  secure : Bool
  sameSite : String
  path : String
  maxAgeMs : Nat
deriving DecidableEq

/-- A cookie set on the response: name, token value, options. -/
structure SetCookie where
  name : String
  value : Token
  options : CookieOpts
deriving DecidableEq

namespace AuthController

/-- Cookie options used by AuthController.addTokens: httpOnly, secure in
production, sameSite strict, path /, maxAge 7*24*60*60*1000 milliseconds. -/
def refreshCookieOptions (production : Bool) : CookieOpts :=
  ⟨true, production, "strict", "/", 7 * 24 * 60 * 60 * 1000⟩

/-- Embedding of AuthController.addTokens: generate a refresh token, then
an access token from it, set the refreshToken cookie, and return the
access/refresh token pair (with the cookie as the third observable). -/
def addTokens (env : Env) (production : Bool) (store : Store) (now : Nat)
    (email id : String) : Except HttpError (Token × Token × SetCookie) :=
  let refreshToken := AuthService.generateRefreshToken env now email id
  match AuthService.generateAccessToken env store now (.tok refreshToken) with
  | .error e => .error e
  | .ok accessToken =>
    .ok (accessToken, refreshToken,
         ⟨"refreshToken", refreshToken, refreshCookieOptions production⟩)

/-- Data object of a successful login/signup response body: the spread of
the Account object next to the two tokens, so its fields are exactly id,
email, password, entryDate, accessToken, refreshToken. -/
structure AuthResponseData where
  id : String
  email : String
  password : StoredHash
  entryDate : Nat
  accessToken : Token
  refreshToken : Token
deriving DecidableEq

/-- The spread in the controller response bodies:
data is the account fields together with the tokens. -/
def spreadAccount (a : Account) (accessToken refreshToken : Token) : AuthResponseData :=
  ⟨a.id, a.email, a.password, a.entryDate, accessToken, refreshToken⟩

/-- A successful controller response: HTTP status, body data, cookie set. -/
structure AuthResponse where
  status : Nat
  data : AuthResponseData
  cookie : SetCookie
deriving DecidableEq

/-- Embedding of AuthController.login: service login, then addTokens, then
a 200 response whose data spreads the account with the tokens. -/
def login (env : Env) (production : Bool) (store : Store) (now : Nat)
    (email password : String) : Except HttpError AuthResponse :=
  match AuthService.login store email password with
  | .error e => .error e
  | .ok account =>
    match addTokens env production store now account.email account.id with
    | .error e => .error e
    | .ok (accessToken, refreshToken, cookie) =>
      .ok ⟨200, spreadAccount account accessToken refreshToken, cookie⟩

/-- Embedding of AuthController.signup: service signup (which persists the
new document), then addTokens against the updated store, then a 201
response whose data spreads the account with the tokens. -/
def signup (env : Env) (production : Bool) (store : Store) (freshId : String)
    (nowMs now : Nat) (email password : String) : Except SignupErr AuthResponse :=
  match AuthService.signup store freshId nowMs email password with
  | .error e => .error e
  | .ok (account, store') =>
    match addTokens env production store' now account.email account.id with
    | .error e => .error (.http e)
    | .ok (accessToken, refreshToken, cookie) =>
      .ok ⟨201, spreadAccount account accessToken refreshToken, cookie⟩

/-- Token selection in the AuthController.generateAccessToken route
handler: req.body.refreshToken || req.cookies.refreshToken, under
JavaScript truthiness (undefined and the empty string are falsy). -/
def selectedRefreshToken (bodyToken cookieToken : Option String) : Option String :=
  match bodyToken with
  | some s => if s = "" then cookieToken else some s
  | none => cookieToken

end AuthController

/-- Truthiness of an optional string request field: present and non-empty
(express-validator exists with checkFalsy). -/
def presentNonEmpty : Option String → Bool
  | none => false
  | some s => !(s == "")

/-- Validation on the POST /token route: oneOf over the refreshToken cookie
and the refreshToken body field, each required to exist and be non-falsy;
the request passes when at least one source is present and non-empty. -/
def tokenRouteValidationPasses (bodyToken cookieToken : Option String) : Bool :=
  presentNonEmpty cookieToken || presentNonEmpty bodyToken

/-- Observable outcome of the POST /token pipeline: rejected by validation
before the controller runs, or the controller ran with the given value
handed to AuthService.generateAccessToken. -/
inductive TokenRouteOutcome
  | validationError
  | controllerRan (refreshToken : Option String)
deriving DecidableEq

/-- Embedding of the POST /token route of authRouter: the validation
middleware runs first and rejects the request when neither source is
present and non-empty; otherwise the controller runs on the selected
token. -/
def tokenRoute (bodyToken cookieToken : Option String) : TokenRouteOutcome :=
  if tokenRouteValidationPasses bodyToken cookieToken then
    .controllerRan (AuthController.selectedRefreshToken bodyToken cookieToken)
  else
    .validationError

/-- Authorization headers of an inbound request: absent, malformed (not a
well-formed bearer header), or carrying a bearer token string. -/
inductive AuthHeader
  | missing
  | malformedHeader (s : String)
  | bearer (ts : TokenStr)
deriving DecidableEq

/-- Modelled from the spec: the authenticate middleware
(src/utils/authentication.ts is not among the provided sources; only its
callers and its tests are). Per spec section 4.4 it extracts the bearer
token from the Authorization header, verifies it against the access-token
secret, attaches the decoded identity on success, and fails with
Unauthorized (status 401) on a missing header, malformed header, or
expired/invalid token. -/
def authenticate (env : Env) (now : Nat) (header : AuthHeader) : Except HttpError Decoded :=
  match header with
  | .missing => .error (unauthorizedError "Unauthorized")
  | .malformedHeader _ => .error (unauthorizedError "Unauthorized")
  | .bearer ts =>
    match jwtVerify ts env.accessTokenSecret now with
    | none => .error (unauthorizedError "Unauthorized")
    | some decoded => .ok decoded

/-- Modelled from the spec: a route guarded by the authenticate middleware
(authRouter mounts it per-route before the profile handlers; userRouter
mounts it router-wide before all routes). The middleware runs first; on
failure the response carries the error status and the handler contributes
nothing; on success the handler runs on the attached identity, producing
its status and its downstream effects. -/
def runGuarded (E : Type) (env : Env) (now : Nat) (header : AuthHeader)
    (handler : Decoded → Nat × List E) : Nat × List E :=
  match authenticate env now header with
  | .error e => (e.status, [])
  | .ok identity => handler identity

/-- Expiry test at clock now: true when the token carries an expiry that
the clock has reached. -/
def isExpired (exp : Option Nat) (now : Nat) : Bool :=
  match exp with
  | some e => decide (e ≤ now)
  | none => false

/-- Failure condition (1) of the generateAccessToken contract: JWT
verification of the refresh token fails — malformed token string, wrong
signing secret, or expired. -/
def refreshVerificationFails (env : Env) (now : Nat) (ts : TokenStr) : Bool :=
  match ts with
  | .malformed _ => true
  | .tok t => decide (t.secret ≠ env.refreshTokenSecret) || isExpired t.exp now

/-- Failure condition (2): the decoded payload is not an object with both
email and id of string type. -/
def payloadShapeBad (ts : TokenStr) : Bool :=
  match ts with
  | .malformed _ => false
  | .tok t => (AuthService.payloadFields t.payload).isNone

/-- Failure condition (3): no account exists whose email equals the payload
email. -/
def accountMissing (store : Store) (ts : TokenStr) : Bool :=
  match ts with
  | .malformed _ => false
  | .tok t =>
    match AuthService.payloadFields t.payload with
    | some (email, _) => (findOne store email).isNone
    | none => false

/-- Failure condition (4): the account found by the payload email has an id
different from the payload id. -/
def accountIdMismatch (store : Store) (ts : TokenStr) : Bool :=
  match ts with
  | .malformed _ => false
  | .tok t =>
    match AuthService.payloadFields t.payload with
    | some (email, id) =>
      match findOne store email with
      | some accountDoc => decide ((Account.fromDoc accountDoc).id ≠ id)
      | none => false
    | none => false

/-- Disjunction of the four failure conditions of generateAccessToken. -/
def gatFails (env : Env) (store : Store) (now : Nat) (ts : TokenStr) : Bool :=
  refreshVerificationFails env now ts || payloadShapeBad ts ||
    accountMissing store ts || accountIdMismatch store ts

/-- Helper: the claim-level verification-failure condition coincides with
jwtVerify returning nothing. -/
theorem refreshVerificationFails_iff (env : Env) (now : Nat) (ts : TokenStr) :
    refreshVerificationFails env now ts = true ↔
      jwtVerify ts env.refreshTokenSecret now = none := by
  cases ts with
  | malformed s => simp [refreshVerificationFails, jwtVerify]
  | tok t =>
    by_cases hsec : t.secret = env.refreshTokenSecret
    · cases hexp : t.exp with
      | none => simp [refreshVerificationFails, jwtVerify, isExpired, hsec, hexp]
      | some e =>
        by_cases hle : e ≤ now
        · have hnlt : ¬ now < e := by omega
          simp [refreshVerificationFails, jwtVerify, isExpired, hexp, hsec, hle, hnlt]
        · have hlt : now < e := by omega
          simp [refreshVerificationFails, jwtVerify, isExpired, hexp, hsec, hle, hlt]
    · simp [refreshVerificationFails, jwtVerify, hsec]

/-- Helper: a successful jwtVerify on a well-formed token returns exactly
that token's payload. -/
theorem jwtVerify_eq_some (t : Token) (secret : String) (now : Nat) (d : Decoded)
    (h : jwtVerify (.tok t) secret now = some d) : d = t.payload := by
  simp only [jwtVerify] at h
  split at h
  · split at h
    · split at h
      · exact (Option.some.inj h).symm
      · cases h
    · exact (Option.some.inj h).symm
  · cases h

/-- C1: AuthService.generateAccessToken fails with an UnauthorizedError
whose message is exactly "Invalid refresh token" if and only if one of the
four conditions holds — verification failure, bad payload shape, missing
account, or id mismatch; every error it produces is that exact error, and
in every other case it returns an access token signed with the access
secret, 15-minute expiry, carrying the payload's email and id. -/
theorem generateAccessToken_unauthorized_iff (env : Env) (store : Store) (now : Nat)
    (ts : TokenStr) :
    (AuthService.generateAccessToken env store now ts
        = .error (unauthorizedError "Invalid refresh token")
      ↔ gatFails env store now ts = true) ∧
    (∀ e, AuthService.generateAccessToken env store now ts = .error e →
      e = unauthorizedError "Invalid refresh token") ∧
    (∀ tok, AuthService.generateAccessToken env store now ts = .ok tok →
      ∃ t email id, ts = .tok t ∧ AuthService.payloadFields t.payload = some (email, id) ∧
        tok = jwtSign email id env.accessTokenSecret now (15 * 60)) := by
  cases hv : jwtVerify ts env.refreshTokenSecret now with
  | none =>
    have hfail : gatFails env store now ts = true := by
      have h1 : refreshVerificationFails env now ts = true :=
        (refreshVerificationFails_iff env now ts).mpr hv
      simp [gatFails, h1]
    refine ⟨?_, ?_, ?_⟩
    · simp only [AuthService.generateAccessToken, hv, hfail, iff_true]
    · intro e he
      simp only [AuthService.generateAccessToken, hv, Except.error.injEq] at he
      exact he.symm
    · intro tok htok
      simp only [AuthService.generateAccessToken, hv] at htok
      exact Except.noConfusion htok
  | some d =>
    cases ts with
    | malformed s => simp [jwtVerify] at hv
    | tok t =>
      have hd : d = t.payload := jwtVerify_eq_some t env.refreshTokenSecret now d hv
      subst hd
      have hc1 : refreshVerificationFails env now (.tok t) = false := by
        rw [Bool.eq_false_iff]
        intro h
        rw [(refreshVerificationFails_iff env now (.tok t)).mp h] at hv
        cases hv
      cases hpf : AuthService.payloadFields t.payload with
      | none =>
        have hfail : gatFails env store now (.tok t) = true := by
          simp [gatFails, payloadShapeBad, hpf]
        refine ⟨?_, ?_, ?_⟩
        · simp only [AuthService.generateAccessToken, hv, hpf, hfail, iff_true]
        · intro e he
          simp only [AuthService.generateAccessToken, hv, hpf, Except.error.injEq] at he
          exact he.symm
        · intro tok htok
          simp only [AuthService.generateAccessToken, hv, hpf] at htok
          exact Except.noConfusion htok
      | some pair =>
        obtain ⟨email, id⟩ := pair
        cases hfo : findOne store email with
        | none =>
          have hfail : gatFails env store now (.tok t) = true := by
            simp [gatFails, accountMissing, hpf, hfo]
          refine ⟨?_, ?_, ?_⟩
          · simp only [AuthService.generateAccessToken, hv, hpf, hfo, hfail, iff_true]
          · intro e he
            simp only [AuthService.generateAccessToken, hv, hpf, hfo,
              Except.error.injEq] at he
            exact he.symm
          · intro tok htok
            simp only [AuthService.generateAccessToken, hv, hpf, hfo] at htok
            exact Except.noConfusion htok
        | some accountDoc =>
          by_cases hid : (Account.fromDoc accountDoc).id = id
          · have hok : AuthService.generateAccessToken env store now (.tok t)
                = .ok (jwtSign email id env.accessTokenSecret now (15 * 60)) := by
              simp only [AuthService.generateAccessToken, hv, hpf, hfo, ne_eq, hid,
                not_true_eq_false, if_false]
            have hfail : gatFails env store now (.tok t) = false := by
              simp [gatFails, hc1, payloadShapeBad, hpf, accountMissing, hfo,
                accountIdMismatch, hid]
            refine ⟨?_, ?_, ?_⟩
            · rw [hok]
              simp [hfail]
            · intro e he
              rw [hok] at he
              cases he
            · intro tok htok
              rw [hok] at htok
              exact ⟨t, email, id, rfl, hpf, (Except.ok.inj htok).symm⟩
          · have herr : AuthService.generateAccessToken env store now (.tok t)
                = .error (unauthorizedError "Invalid refresh token") := by
              simp only [AuthService.generateAccessToken, hv, hpf, hfo, ne_eq, hid,
                not_false_eq_true, if_true]
            have hfail : gatFails env store now (.tok t) = true := by
              simp [gatFails, accountIdMismatch, hpf, hfo, hid]
            refine ⟨?_, ?_, ?_⟩
            · rw [herr]
              simp [hfail]
            · intro e he
              rw [herr] at he
              exact (Except.error.inj he).symm
            · intro tok htok
              rw [herr] at htok
              cases htok

/-- C1 witness: a refresh token signed with the wrong secret makes
generateAccessToken fail with exactly the invalid-refresh-token error, and
a well-formed refresh token for a stored account yields the access token
signed with the access secret for the payload's email and id. -/
theorem generateAccessToken_unauthorized_iff_witness :
    AuthService.generateAccessToken ⟨"as", "rs"⟩ [⟨"i1", "a", .bcrypt "pw", 0⟩] 0
        (.tok (jwtSign "a" "i1" "bad" 0 604800))
      = .error (unauthorizedError "Invalid refresh token") ∧
    (∃ t email id,
      (TokenStr.tok (jwtSign "a" "i1" "rs" 0 604800)) = .tok t ∧
      AuthService.payloadFields t.payload = some (email, id) ∧
      jwtSign "a" "i1" "as" 0 (15 * 60) = jwtSign email id "as" 0 (15 * 60)) := by
  constructor
  · exact ((generateAccessToken_unauthorized_iff ⟨"as", "rs"⟩
      [⟨"i1", "a", .bcrypt "pw", 0⟩] 0 (.tok (jwtSign "a" "i1" "bad" 0 604800))).1).mpr
      (by decide)
  · exact (generateAccessToken_unauthorized_iff ⟨"as", "rs"⟩
      [⟨"i1", "a", .bcrypt "pw", 0⟩] 0 (.tok (jwtSign "a" "i1" "rs" 0 604800))).2.2
      (jwtSign "a" "i1" "as" 0 (15 * 60)) rfl

/-- C6: an access token is minted only under the id-match condition — every
success of generateAccessToken comes from a well-formed token whose payload
email finds an account whose id equals the payload id, and whenever the
looked-up account's id differs from the payload id the operation fails with
the invalid-refresh-token UnauthorizedError. -/
theorem accessToken_minted_only_on_idMatch (env : Env) (store : Store) (now : Nat)
    (ts : TokenStr) :
    (∀ tok, AuthService.generateAccessToken env store now ts = .ok tok →
      ∃ t email id accountDoc, ts = .tok t ∧
        AuthService.payloadFields t.payload = some (email, id) ∧
        findOne store email = some accountDoc ∧
        (Account.fromDoc accountDoc).id = id) ∧
    (∀ t email id accountDoc, ts = .tok t →
      AuthService.payloadFields t.payload = some (email, id) →
      findOne store email = some accountDoc →
      (Account.fromDoc accountDoc).id ≠ id →
      AuthService.generateAccessToken env store now ts
        = .error (unauthorizedError "Invalid refresh token")) := by
  constructor
  · intro tok htok
    cases hv : jwtVerify ts env.refreshTokenSecret now with
    | none =>
      simp only [AuthService.generateAccessToken, hv] at htok
      exact Except.noConfusion htok
    | some d =>
      cases ts with
      | malformed s => simp [jwtVerify] at hv
      | tok t =>
        have hd : d = t.payload := jwtVerify_eq_some t env.refreshTokenSecret now d hv
        subst hd
        cases hpf : AuthService.payloadFields t.payload with
        | none =>
          simp only [AuthService.generateAccessToken, hv, hpf] at htok
          exact Except.noConfusion htok
        | some pair =>
          obtain ⟨email, id⟩ := pair
          cases hfo : findOne store email with
          | none =>
            simp only [AuthService.generateAccessToken, hv, hpf, hfo] at htok
            exact Except.noConfusion htok
          | some accountDoc =>
            by_cases hid : (Account.fromDoc accountDoc).id = id
            · exact ⟨t, email, id, accountDoc, rfl, hpf, hfo, hid⟩
            · simp only [AuthService.generateAccessToken, hv, hpf, hfo, ne_eq, hid,
                not_false_eq_true, if_true] at htok
              exact Except.noConfusion htok
  · intro t email id accountDoc hts hpf hfo hid
    subst hts
    cases hv : jwtVerify (.tok t) env.refreshTokenSecret now with
    | none => simp only [AuthService.generateAccessToken, hv]
    | some d =>
      have hd : d = t.payload := jwtVerify_eq_some t env.refreshTokenSecret now d hv
      subst hd
      simp only [AuthService.generateAccessToken, hv, hpf, hfo, ne_eq, hid,
        not_false_eq_true, if_true]

/-- C6 witness: for a one-account store, the access token minted from a
good refresh token satisfies the id-match condition, and a refresh token
carrying a mismatched id is rejected with the invalid-refresh-token
error. -/
theorem accessToken_minted_only_on_idMatch_witness :
    (∃ t email id accountDoc,
      (TokenStr.tok (jwtSign "a" "i1" "rs" 0 604800)) = TokenStr.tok t ∧
      AuthService.payloadFields t.payload = some (email, id) ∧
      findOne [⟨"i1", "a", .bcrypt "pw", 0⟩] email = some accountDoc ∧
      (Account.fromDoc accountDoc).id = id) ∧
    AuthService.generateAccessToken ⟨"as", "rs"⟩ [⟨"i1", "a", .bcrypt "pw", 0⟩] 0
        (.tok (jwtSign "a" "i2" "rs" 0 604800))
      = .error (unauthorizedError "Invalid refresh token") := by
  constructor
  · exact (accessToken_minted_only_on_idMatch ⟨"as", "rs"⟩
      [⟨"i1", "a", .bcrypt "pw", 0⟩] 0 (.tok (jwtSign "a" "i1" "rs" 0 604800))).1
      (jwtSign "a" "i1" "as" 0 (15 * 60)) rfl
  · exact (accessToken_minted_only_on_idMatch ⟨"as", "rs"⟩
      [⟨"i1", "a", .bcrypt "pw", 0⟩] 0 (.tok (jwtSign "a" "i2" "rs" 0 604800))).2
      (jwtSign "a" "i2" "rs" 0 604800) "a" "i2" ⟨"i1", "a", .bcrypt "pw", 0⟩
      rfl rfl rfl (by decide)

/-- Helper: under the unique-email invariant, findOne locates exactly the
member document carrying the queried email. -/
theorem findOne_eq_of_mem (store : Store) (doc : AccountDoc) (email : String)
    (huniq : uniqueEmails store) (hmem : doc ∈ store) (hemail : doc.email = email) :
    findOne store email = some doc := by
  induction store with
  | nil => cases hmem
  | cons a rest ih =>
    rw [uniqueEmails, List.pairwise_cons] at huniq
    obtain ⟨hhead, hrest⟩ := huniq
    rcases List.mem_cons.mp hmem with h | h
    · subst h
      simp [findOne, List.find?_cons, hemail]
    · have hne : (a.email == email) = false := by
        rw [beq_eq_false_iff_ne]
        intro heq
        exact (hhead doc h) (heq.trans hemail.symm)
      have hrec : findOne rest email = some doc := ih hrest h
      simp only [findOne, List.find?_cons, hne] at *
      exact hrec

/-- C2: for an account stored with exactly the given email and id,
generateAccessToken on generateRefreshToken succeeds and returns an access
token whose payload email and id equal the inputs, and addTokens performs
exactly this composition, returning the access/refresh pair. -/
theorem roundTrip_refresh_access (env : Env) (store : Store) (now : Nat)
    (email id : String) (doc : AccountDoc)
    (huniq : uniqueEmails store) (hmem : doc ∈ store)
    (hemail : doc.email = email) (hid : doc._id = id) :
    AuthService.generateAccessToken env store now
        (.tok (AuthService.generateRefreshToken env now email id))
      = .ok (jwtSign email id env.accessTokenSecret now (15 * 60)) ∧
    AuthService.payloadFields
        (jwtSign email id env.accessTokenSecret now (15 * 60)).payload
      = some (email, id) ∧
    ∀ production : Bool,
      AuthController.addTokens env production store now email id
        = .ok (jwtSign email id env.accessTokenSecret now (15 * 60),
               AuthService.generateRefreshToken env now email id,
               ⟨"refreshToken", AuthService.generateRefreshToken env now email id,
                AuthController.refreshCookieOptions production⟩) := by
  have hfo : findOne store email = some doc := findOne_eq_of_mem store doc email huniq hmem hemail
  have hlt : now < now + 7 * 24 * 60 * 60 := by omega
  have hv : jwtVerify (.tok (AuthService.generateRefreshToken env now email id))
      env.refreshTokenSecret now
      = some (Decoded.obj [("email", .jstr email), ("id", .jstr id)]) := by
    simp [jwtVerify, AuthService.generateRefreshToken, jwtSign, hlt]
  have hpf : AuthService.payloadFields
      (Decoded.obj [("email", .jstr email), ("id", .jstr id)]) = some (email, id) := rfl
  have hmatch : (Account.fromDoc doc).id = id := hid
  have hacc : AuthService.generateAccessToken env store now
      (.tok (AuthService.generateRefreshToken env now email id))
      = .ok (jwtSign email id env.accessTokenSecret now (15 * 60)) := by
    simp only [AuthService.generateAccessToken, hv, hpf, hfo, ne_eq, hmatch,
      not_true_eq_false, if_false]
  refine ⟨hacc, rfl, ?_⟩
  intro production
  simp only [AuthController.addTokens, hacc]

/-- C2 witness: for a concrete one-account store, the refresh-then-access
composition succeeds with the expected payload and addTokens returns the
pair. -/
theorem roundTrip_refresh_access_witness :
    AuthService.generateAccessToken ⟨"as", "rs"⟩ [⟨"i1", "a", .bcrypt "pw", 0⟩] 5
        (.tok (AuthService.generateRefreshToken ⟨"as", "rs"⟩ 5 "a" "i1"))
      = .ok (jwtSign "a" "i1" "as" 5 (15 * 60)) ∧
    AuthController.addTokens ⟨"as", "rs"⟩ false [⟨"i1", "a", .bcrypt "pw", 0⟩] 5 "a" "i1"
      = .ok (jwtSign "a" "i1" "as" 5 (15 * 60),
             AuthService.generateRefreshToken ⟨"as", "rs"⟩ 5 "a" "i1",
             ⟨"refreshToken", AuthService.generateRefreshToken ⟨"as", "rs"⟩ 5 "a" "i1",
              AuthController.refreshCookieOptions false⟩) := by
  have h := roundTrip_refresh_access ⟨"as", "rs"⟩ [⟨"i1", "a", .bcrypt "pw", 0⟩] 5
    "a" "i1" ⟨"i1", "a", .bcrypt "pw", 0⟩ (by simp [uniqueEmails]) (by simp) rfl rfl
  exact ⟨h.1, h.2.2 false⟩

/-- C3: login with a nonexistent email and login with an existing email but
a failing password check produce one and the same error value — class
UnauthorizedError, status 401, code UNAUTHORIZED, and the byte-identical
message "Invalid email or password" — so login never reveals which cause
applied. -/
theorem login_errors_indistinguishable (store : Store)
    (email1 password1 email2 password2 : String) (doc : AccountDoc)
    (h1 : findOne store email1 = none)
    (h2 : findOne store email2 = some doc)
    (h3 : bcryptCompare password2 doc.password = false) :
    ∃ err : HttpError,
      AuthService.login store email1 password1 = .error err ∧
      AuthService.login store email2 password2 = .error err ∧
      err = ⟨"UnauthorizedError", "Invalid email or password", "UNAUTHORIZED", 401⟩ := by
  refine ⟨unauthorizedError "Invalid email or password", ?_, ?_, rfl⟩
  · simp only [AuthService.login, h1]
  · simp [AuthService.login, h2, h3]

/-- C3 witness: a concrete store where the unknown-email error and the
wrong-password error are the same observable value. -/
theorem login_errors_indistinguishable_witness :
    ∃ err : HttpError,
      AuthService.login [⟨"i1", "a", .bcrypt "pw", 0⟩] "b" "anything" = .error err ∧
      AuthService.login [⟨"i1", "a", .bcrypt "pw", 0⟩] "a" "wrong" = .error err ∧
      err = ⟨"UnauthorizedError", "Invalid email or password", "UNAUTHORIZED", 401⟩ :=
  login_errors_indistinguishable [⟨"i1", "a", .bcrypt "pw", 0⟩] "b" "anything" "a" "wrong"
    ⟨"i1", "a", .bcrypt "pw", 0⟩ rfl rfl rfl

/-- C5: a signup whose lowercased email equals a stored (lowercased) email
fails at the insert with the duplicate-key error and surfaces as
AccountConflictError, status 409, code ACCOUNT_CONFLICT, with the message
naming the submitted email verbatim; any store error other than the
duplicate-key violation is rethrown unchanged by the catch block. -/
theorem signup_conflict_on_duplicate_email (store : Store) (freshId : String) (nowMs : Nat)
    (email password : String) (doc : AccountDoc)
    (hmem : doc ∈ store) (hdup : doc.email = jsToLowerCase email) :
    save store ⟨freshId, jsToLowerCase email, bcryptHash password, nowMs⟩
      = .error (.mongoError duplicateKeyCode) ∧
    AuthService.signup store freshId nowMs email password
      = .error (.http (accountConflictError
          ("Account with email " ++ email ++ " already exists"))) ∧
    (accountConflictError ("Account with email " ++ email ++ " already exists")).status
      = 409 ∧
    (accountConflictError ("Account with email " ++ email ++ " already exists")).code
      = "ACCOUNT_CONFLICT" ∧
    (∀ e : JsError, e ≠ .mongoError duplicateKeyCode →
      AuthService.signupCatch email e = .rethrown e) := by
  have hany : store.any (fun a => a.email == jsToLowerCase email) = true := by
    rw [List.any_eq_true]
    exact ⟨doc, hmem, by simpa using hdup⟩
  have hsave : save store ⟨freshId, jsToLowerCase email, bcryptHash password, nowMs⟩
      = .error (.mongoError duplicateKeyCode) := by
    simp only [save, hany, if_true]
  refine ⟨hsave, ?_, rfl, rfl, ?_⟩
  · simp [AuthService.signup, hsave, AuthService.signupCatch]
  · intro e he
    cases e with
    | mongoError code =>
      have hne : ¬ code = duplicateKeyCode := by
        intro h
        exact he (by rw [h])
      simp [AuthService.signupCatch, hne]
    | otherError n => simp [AuthService.signupCatch]

/-- C5 witness: signing up with a different casing of a stored email
produces the 409 conflict naming the submitted casing. -/
theorem signup_conflict_on_duplicate_email_witness :
    AuthService.signup [⟨"i1", "a@test.com", .bcrypt "pw", 0⟩] "i2" 0 "A@Test.com" "pw2"
      = .error (.http (accountConflictError
          ("Account with email " ++ "A@Test.com" ++ " already exists"))) :=
  (signup_conflict_on_duplicate_email [⟨"i1", "a@test.com", .bcrypt "pw", 0⟩] "i2" 0
    "A@Test.com" "pw2" ⟨"i1", "a@test.com", .bcrypt "pw", 0⟩ (by simp) (by decide)).2.1

/-- C7: the refresh-token cookie lifetime equals the refresh token's own
expiry exactly — the cookie maxAge is 7*24*60*60*1000 milliseconds, the
token is signed with a 604800-second (7-day) expiry, and the two durations
agree with zero drift. -/
theorem refreshCookie_lifetime_matches_token_expiry (env : Env) (now : Nat)
    (email id : String) (production : Bool) :
    (AuthService.generateRefreshToken env now email id).exp = some (now + 604800) ∧
    (AuthController.refreshCookieOptions production).maxAgeMs = 7 * 24 * 60 * 60 * 1000 ∧
    (AuthController.refreshCookieOptions production).maxAgeMs = 604800 * 1000 := by
  refine ⟨?_, rfl, rfl⟩
  show some (now + 7 * 24 * 60 * 60) = some (now + 604800)
  norm_num

/-- C9: password verification never throws past the service boundary —
login always either returns an account or fails with the ambiguous
UnauthorizedError, and an account whose stored hash is malformed makes the
check evaluate to false and login fail with that same ambiguous error. -/
theorem login_never_throws_past_boundary (store : Store) (email password : String) :
    ((∃ a, AuthService.login store email password = .ok a) ∨
      AuthService.login store email password
        = .error (unauthorizedError "Invalid email or password")) ∧
    (∀ accountDoc s, findOne store email = some accountDoc →
      accountDoc.password = .malformedHash s →
      bcryptCompare password accountDoc.password = false ∧
      AuthService.login store email password
        = .error (unauthorizedError "Invalid email or password")) := by
  constructor
  · cases hfo : findOne store email with
    | none =>
      right
      simp [AuthService.login, hfo]
    | some accountDoc =>
      by_cases hc : bcryptCompare password accountDoc.password = true
      · left
        exact ⟨Account.fromDoc accountDoc, by simp [AuthService.login, hfo, hc]⟩
      · right
        rw [Bool.not_eq_true] at hc
        simp [AuthService.login, hfo, hc]
  · intro accountDoc s hfo hmal
    have hfc : bcryptCompare password accountDoc.password = false := by
      rw [hmal]
      rfl
    exact ⟨hfc, by simp [AuthService.login, hfo, hfc]⟩

/-- C9 witness: a store whose only account carries a malformed hash makes
the password check false and login fail with the ambiguous error. -/
theorem login_never_throws_past_boundary_witness :
    bcryptCompare "pw" (StoredHash.malformedHash "zz") = false ∧
    AuthService.login [⟨"i1", "a", .malformedHash "zz", 0⟩] "a" "pw"
      = .error (unauthorizedError "Invalid email or password") :=
  (login_never_throws_past_boundary [⟨"i1", "a", .malformedHash "zz", 0⟩] "a" "pw").2
    ⟨"i1", "a", .malformedHash "zz", 0⟩ "zz" rfl rfl

/-- Helper: a successful service login comes from a found document whose
password check passed, and returns exactly that document's account view. -/
theorem login_ok_inv (store : Store) (email password : String) (a : Account)
    (h : AuthService.login store email password = .ok a) :
    ∃ accountDoc, findOne store email = some accountDoc ∧ a = Account.fromDoc accountDoc := by
  cases hfo : findOne store email with
  | none =>
    simp only [AuthService.login, hfo] at h
    exact Except.noConfusion h
  | some accountDoc =>
    by_cases hc : bcryptCompare password accountDoc.password = true
    · simp only [AuthService.login, hfo, hc, if_true] at h
      exact ⟨accountDoc, rfl, (Except.ok.inj h).symm⟩
    · rw [Bool.not_eq_true] at hc
      simp only [AuthService.login, hfo, hc, Bool.false_eq_true, if_false] at h
      exact Except.noConfusion h

/-- Helper: a successful service signup returns the account view of the
freshly constructed document — lowercased email and hashed password. -/
theorem signup_ok_inv (store : Store) (freshId : String) (nowMs : Nat)
    (email password : String) (a : Account) (store' : Store)
    (h : AuthService.signup store freshId nowMs email password = .ok (a, store')) :
    a = Account.fromDoc ⟨freshId, jsToLowerCase email, bcryptHash password, nowMs⟩ := by
  simp only [AuthService.signup] at h
  cases hs : save store ⟨freshId, jsToLowerCase email, bcryptHash password, nowMs⟩ with
  | error e =>
    rw [hs] at h
    exact Except.noConfusion h
  | ok rest =>
    rw [hs] at h
    have := Except.ok.inj h
    exact (congrArg Prod.fst this).symm

/-- C10: every successful login (status 200) and signup (status 201)
response spreads the full Account object into the data field, so data
carries the account's stored password hash on every successful
authentication response. -/
theorem response_data_contains_password_hash (env : Env) (production : Bool)
    (store : Store) (now : Nat) (email password : String) :
    (∀ resp, AuthController.login env production store now email password = .ok resp →
      resp.status = 200 ∧
      ∃ accountDoc, findOne store email = some accountDoc ∧
        resp.data.password = accountDoc.password) ∧
    (∀ freshId nowMs resp,
      AuthController.signup env production store freshId nowMs now email password
        = .ok resp →
      resp.status = 201 ∧ resp.data.password = bcryptHash password) := by
  constructor
  · intro resp hresp
    cases hsl : AuthService.login store email password with
    | error e =>
      simp only [AuthController.login, hsl] at hresp
      exact Except.noConfusion hresp
    | ok account =>
      cases hat : AuthController.addTokens env production store now account.email account.id with
      | error e =>
        simp only [AuthController.login, hsl, hat] at hresp
        exact Except.noConfusion hresp
      | ok triple =>
        obtain ⟨accessToken, refreshToken, cookie⟩ := triple
        simp only [AuthController.login, hsl, hat] at hresp
        obtain ⟨accountDoc, hfo, haccount⟩ := login_ok_inv store email password account hsl
        have hr : resp
            = ⟨200, AuthController.spreadAccount account accessToken refreshToken, cookie⟩ :=
          (Except.ok.inj hresp).symm
        subst hr
        refine ⟨rfl, accountDoc, hfo, ?_⟩
        rw [haccount]
        rfl
  · intro freshId nowMs resp hresp
    cases hss : AuthService.signup store freshId nowMs email password with
    | error e =>
      simp only [AuthController.signup, hss] at hresp
      exact Except.noConfusion hresp
    | ok pair =>
      obtain ⟨account, store'⟩ := pair
      cases hat : AuthController.addTokens env production store' now account.email account.id with
      | error e =>
        simp only [AuthController.signup, hss, hat] at hresp
        exact Except.noConfusion hresp
      | ok triple =>
        obtain ⟨accessToken, refreshToken, cookie⟩ := triple
        simp only [AuthController.signup, hss, hat] at hresp
        have haccount := signup_ok_inv store freshId nowMs email password account store' hss
        have hr : resp
            = ⟨201, AuthController.spreadAccount account accessToken refreshToken, cookie⟩ :=
          (Except.ok.inj hresp).symm
        subst hr
        refine ⟨rfl, ?_⟩
        rw [haccount]
        rfl

/-- C10 witness: a concrete login responds 200 with the stored hash in the
data object, and a concrete signup responds 201 with the just-stored hash
in the data object. -/
theorem response_data_contains_password_hash_witness :
    (∃ resp, AuthController.login ⟨"as", "rs"⟩ false [⟨"i1", "a", .bcrypt "pw", 0⟩] 0 "a" "pw"
        = .ok resp ∧
      resp.status = 200 ∧
      ∃ accountDoc, findOne [⟨"i1", "a", .bcrypt "pw", 0⟩] "a" = some accountDoc ∧
        resp.data.password = accountDoc.password) ∧
    (∃ resp, AuthController.signup ⟨"as", "rs"⟩ false [] "i1" 0 0 "A@B.com" "pw"
        = .ok resp ∧
      resp.status = 201 ∧ resp.data.password = bcryptHash "pw") := by
  constructor
  · have h := (response_data_contains_password_hash ⟨"as", "rs"⟩ false
      [⟨"i1", "a", .bcrypt "pw", 0⟩] 0 "a" "pw").1
    exact ⟨_, rfl, h _ rfl⟩
  · have h := (response_data_contains_password_hash ⟨"as", "rs"⟩ false [] 0 "A@B.com" "pw").2
    exact ⟨_, rfl, h "i1" 0 _ rfl⟩

/-- C4 counterexample: with both the body and the cookie present and
non-empty, the value handed to generateAccessToken is the body's value, not
the cookie's, refuting the claimed cookie precedence. -/
theorem tokenRoute_cookie_precedence_counterexample :
    tokenRoute (some "bodyTok") (some "cookieTok") = .controllerRan (some "bodyTok") ∧
    TokenRouteOutcome.controllerRan (some "bodyTok")
      ≠ TokenRouteOutcome.controllerRan (some "cookieTok") := by
  exact ⟨rfl, by decide⟩

/-- C4 amended: both sources are accepted; when both are present and
non-empty the body's value is the one passed to generateAccessToken (the
body takes precedence over the cookie); when neither source is present and
non-empty, the request is rejected by validation before the controller
runs. -/
theorem tokenRoute_source_selection (bodyToken cookieToken : Option String) :
    (presentNonEmpty bodyToken = true →
      tokenRoute bodyToken cookieToken = .controllerRan bodyToken) ∧
    (presentNonEmpty bodyToken = false → presentNonEmpty cookieToken = true →
      tokenRoute bodyToken cookieToken = .controllerRan cookieToken) ∧
    (presentNonEmpty bodyToken = false → presentNonEmpty cookieToken = false →
      tokenRoute bodyToken cookieToken = .validationError) := by
  refine ⟨?_, ?_, ?_⟩
  · intro hb
    have hv : tokenRouteValidationPasses bodyToken cookieToken = true := by
      simp [tokenRouteValidationPasses, hb]
    cases bodyToken with
    | none => simp [presentNonEmpty] at hb
    | some s =>
      have hs : ¬ s = "" := by simpa [presentNonEmpty] using hb
      simp [tokenRoute, hv, AuthController.selectedRefreshToken, hs]
  · intro hb hc
    have hv : tokenRouteValidationPasses bodyToken cookieToken = true := by
      simp [tokenRouteValidationPasses, hc]
    cases bodyToken with
    | none => simp [tokenRoute, hv, AuthController.selectedRefreshToken]
    | some s =>
      have hs : s = "" := by simpa [presentNonEmpty] using hb
      subst hs
      simp [tokenRoute, hv, AuthController.selectedRefreshToken]
  · intro hb hc
    have hv : tokenRouteValidationPasses bodyToken cookieToken = false := by
      simp [tokenRouteValidationPasses, hb, hc]
    simp [tokenRoute, hv]

/-- C4 witness: concrete requests showing body precedence, cookie fallback,
and the validation rejection when neither source is given. -/
theorem tokenRoute_source_selection_witness :
    tokenRoute (some "b") (some "c") = .controllerRan (some "b") ∧
    tokenRoute none (some "c") = .controllerRan (some "c") ∧
    tokenRoute none none = .validationError :=
  ⟨(tokenRoute_source_selection (some "b") (some "c")).1 (by decide),
   (tokenRoute_source_selection none (some "c")).2.1 (by decide) (by decide),
   (tokenRoute_source_selection none none).2.2 (by decide) (by decide)⟩

/-- C8: on a request to a guarded route whose Authorization header is
missing, malformed, or carries an invalid or expired access token, the
pipeline responds 401 with no downstream effects and the handler never
contributes; when the token verifies, the decoded identity is attached and
the handler's own response is returned. -/
theorem guarded_route_short_circuits (E : Type) (env : Env) (now : Nat)
    (header : AuthHeader) (handler : Decoded → Nat × List E) :
    (∀ e, authenticate env now header = .error e →
      runGuarded E env now header handler = (401, []) ∧ e.status = 401) ∧
    (∀ identity, authenticate env now header = .ok identity →
      runGuarded E env now header handler = handler identity) := by
  constructor
  · intro e he
    have hstatus : e.status = 401 := by
      cases header with
      | missing =>
        simp only [authenticate, Except.error.injEq] at he
        rw [← he]
        rfl
      | malformedHeader s =>
        simp only [authenticate, Except.error.injEq] at he
        rw [← he]
        rfl
      | bearer ts =>
        cases hv : jwtVerify ts env.accessTokenSecret now with
        | none =>
          simp only [authenticate, hv, Except.error.injEq] at he
          rw [← he]
          rfl
        | some d =>
          simp only [authenticate, hv] at he
          exact Except.noConfusion he
    refine ⟨?_, hstatus⟩
    simp [runGuarded, he, hstatus]
  · intro identity hid
    simp [runGuarded, hid]

/-- C8 witness: a request without an Authorization header is answered 401
with no downstream effect, and a request bearing a valid access token runs
the handler on the decoded identity. -/
theorem guarded_route_short_circuits_witness :
    runGuarded String ⟨"as", "rs"⟩ 0 .missing (fun _ => (200, ["handler-ran"]))
      = (401, []) ∧
    runGuarded String ⟨"as", "rs"⟩ 0 (.bearer (.tok (jwtSign "a" "i1" "as" 0 900)))
        (fun _ => (200, ["handler-ran"]))
      = (200, ["handler-ran"]) := by
  constructor
  · exact ((guarded_route_short_circuits String ⟨"as", "rs"⟩ 0 .missing
      (fun _ => (200, ["handler-ran"]))).1 (unauthorizedError "Unauthorized") rfl).1
  · exact (guarded_route_short_circuits String ⟨"as", "rs"⟩ 0
      (.bearer (.tok (jwtSign "a" "i1" "as" 0 900)))
      (fun _ => (200, ["handler-ran"]))).2 (jwtSign "a" "i1" "as" 0 900).payload rfl

end Medmatch
